import Mathlib

/-!
Verification development for the arresting-gear airfield indexer
(`find_arresting_gear_airfields.py`).

The Python source works over strings with compiled regular expressions and
over XML element trees consumed through an iterparse event stream.  The
shallow embedding below models:

* strings as `List Char` (ASCII semantics for case folding, whitespace and
  word characters, which is what the source data uses);
* each compiled regular expression of the source as a dedicated scanner
  implementing Python `re` semantics for that pattern (leftmost match,
  alternation tried left to right, greedy optional parts with
  backtracking, non-overlapping `finditer`/`findall` continuation);
* XML elements as a tree type `Elem`, with `iter` as pre-order traversal
  (the element itself first), and the iterparse stream as a list of
  start/end events folded through an explicit state.

Python `float()` is modelled on plain decimal notation (sign, digits,
fraction, exponent); the special spellings (inf/nan, underscores) do not
occur in the coordinate and dimension fields this program reads.
-/

namespace T45

/-! ## Character helpers (ASCII, matching Python `re` on this data) -/

def toUp (c : Char) : Char :=
  if 'a' ≤ c ∧ c ≤ 'z' then Char.ofNat (c.toNat - 32) else c

def isWordChar (c : Char) : Bool :=
  ('a' ≤ c && c ≤ 'z') || ('A' ≤ c && c ≤ 'Z') || ('0' ≤ c && c ≤ '9') || c = '_'

def isDigitChar (c : Char) : Bool := '0' ≤ c && c ≤ '9'

def isSpaceChar (c : Char) : Bool :=
  c = ' ' || c = '\t' || c = '\n' || c = '\x0d' || c = '\x0b' || c = '\x0c'

def isAsciiLetter (c : Char) : Bool :=
  ('a' ≤ c && c ≤ 'z') || ('A' ≤ c && c ≤ 'Z')

def isUpperLetter (c : Char) : Bool := 'A' ≤ c && c ≤ 'Z'

/-- Python `str.strip()` (whitespace on both ends). -/
def pyStrip (s : String) : String :=
  ⟨((s.toList.dropWhile isSpaceChar).reverse.dropWhile isSpaceChar).reverse⟩

/-- Python truthiness of an optional string: `None` and `""` are falsy. -/
def pyTruthyS (o : Option String) : Bool :=
  match o with
  | none => false
  | some s => s ≠ ""

/-- `(text or "").strip() or None` -/
def strippedOrNone (s : String) : Option String :=
  let t := pyStrip s
  if t = "" then none else some t

/-! ## Literal matching primitives -/

/-- Case-insensitive literal match; returns (consumed original chars, rest). -/
def matchCI : List Char → List Char → Option (List Char × List Char)
  | [], cs => some ([], cs)
  | _ :: _, [] => none
  | p :: ps, c :: cs =>
      if toUp c = toUp p then (matchCI ps cs).map (fun r => (c :: r.1, r.2))
      else none

/-- Case-sensitive literal match; returns the rest on success. -/
def matchCS : List Char → List Char → Option (List Char)
  | [], cs => some cs
  | _ :: _, [] => none
  | p :: ps, c :: cs => if c = p then matchCS ps cs else none

def spanSpaces (cs : List Char) : List Char × List Char :=
  (cs.takeWhile isSpaceChar, cs.dropWhile isSpaceChar)

def spanDigits (cs : List Char) : List Char × List Char :=
  (cs.takeWhile isDigitChar, cs.dropWhile isDigitChar)

/-- Exactly `k` digit characters. -/
def takeDigits : Nat → List Char → Option (List Char × List Char)
  | 0, cs => some ([], cs)
  | _ + 1, [] => none
  | k + 1, c :: cs =>
      if isDigitChar c then (takeDigits k cs).map (fun p => (c :: p.1, p.2))
      else none

def digitsVal (ds : List Char) : Nat :=
  ds.foldl (fun n c => 10 * n + (c.toNat - 48)) 0

/-- `\b` at the current position (`prevWord`: previous char is a word char). -/
def bAt (prevWord : Bool) (cs : List Char) : Bool :=
  match cs with
  | [] => prevWord
  | c :: _ => prevWord != isWordChar c

/-- `\b` right after a match that ends in a word character. -/
def bAfter : List Char → Bool
  | [] => true
  | c :: _ => !(isWordChar c)

/-- Python `pat in s` substring containment. -/
def hasSubstr (pat : List Char) : List Char → Bool
  | [] => pat.isEmpty
  | c :: cs => (matchCS pat (c :: cs)).isSome || hasSubstr pat cs

/-! ## `GEAR_TYPE_RE`:
`\b(?:(HOOK)\s+)?(BAK-?12[ABab]?|BAK-?14|BAK-?9|BAK-?13|BAK-?15|MB-?60|EMAS|E-?5[A-Za-z]?|E-?28[A-Za-z]?|E-?32[A-Za-z]?|MAAS)\b`
with `re.IGNORECASE`.  Candidates are produced in the order the Python
backtracking engine tries them. -/

/-- Candidates for an optional trailing one-character class (greedy first). -/
def optClassCands (cls : Char → Bool) (pre rest : List Char) :
    List (List Char × List Char) :=
  match rest with
  | c :: cs => if cls c then [(pre ++ [c], cs), (pre, rest)] else [(pre, rest)]
  | [] => [(pre, rest)]

/-- Candidates for `l1-?l2cls?` (hyphen branch first, greedy class first). -/
def codeAltCands (l1 l2 : String) (cls : Option (Char → Bool)) (cs : List Char) :
    List (List Char × List Char) :=
  match matchCI (l1.toList) cs with
  | none => []
  | some (c1, r1) =>
    let hy : List (List Char × List Char) :=
      match r1 with
      | '-' :: r2 =>
        match matchCI (l2.toList) r2 with
        | some (c2, r3) => [(c1 ++ '-' :: c2, r3)]
        | none => []
      | _ => []
    let nohy : List (List Char × List Char) :=
      match matchCI (l2.toList) r1 with
      | some (c2, r3) => [(c1 ++ c2, r3)]
      | none => []
    let base := hy ++ nohy
    match cls with
    | none => base
    | some f => base.flatMap (fun p => optClassCands f p.1 p.2)

def litCand (l : String) (cs : List Char) : List (List Char × List Char) :=
  match matchCI (l.toList) cs with
  | some (c, r) => [(c, r)]
  | none => []

def isABClass (c : Char) : Bool := toUp c = 'A' || toUp c = 'B'

/-- All candidates of the gear-code alternation, in Python trial order. -/
def gearCodeCands (cs : List Char) : List (List Char × List Char) :=
  codeAltCands ("BAK") ("12") (some isABClass) cs ++
  codeAltCands ("BAK") ("14") none cs ++
  codeAltCands ("BAK") ("9") none cs ++
  codeAltCands ("BAK") ("13") none cs ++
  codeAltCands ("BAK") ("15") none cs ++
  codeAltCands ("MB") ("60") none cs ++
  litCand ("EMAS") cs ++
  codeAltCands ("E") ("5") (some isAsciiLetter) cs ++
  codeAltCands ("E") ("28") (some isAsciiLetter) cs ++
  codeAltCands ("E") ("32") (some isAsciiLetter) cs ++
  litCand ("MAAS") cs

/-- First candidate whose right context satisfies the trailing `\b`. -/
def pickCand : List (List Char × List Char) → Option (List Char × List Char)
  | [] => none
  | (m, r) :: rest => if bAfter r then some (m, r) else pickCand rest

/--
One attempt of `GEAR_TYPE_RE` at the current position.  Returns
(hook group present, gear group text, rest after the whole match).
The optional `(HOOK)\s+` group is tried first (greedy), falling back to
matching the gear code directly at this position.
-/
def gearMatchAt (prevWord : Bool) (cs : List Char) :
    Option (Bool × List Char × List Char) :=
  if bAt prevWord cs then
    let hookPath : Option (Bool × List Char × List Char) :=
      match matchCI ("HOOK".toList) cs with
      | some (_, r1) =>
        let sp := spanSpaces r1
        if sp.1.isEmpty then none
        else
          match pickCand (gearCodeCands sp.2) with
          | some (m, r3) => some (true, m, r3)
          | none => none
      | none => none
    match hookPath with
    | some res => some res
    | none =>
      match pickCand (gearCodeCands cs) with
      | some (m, r) => some (false, m, r)
      | none => none
  else none

/-- `GEAR_TYPE_RE.finditer`: non-overlapping scan, group pair per match. -/
def gearScan : Nat → Bool → List Char → List (Bool × List Char)
  | 0, _, _ => []
  | _ + 1, _, [] => []
  | n + 1, pw, c :: cs =>
      match gearMatchAt pw (c :: cs) with
      | some (hk, g, rest) => (hk, g) :: gearScan n true rest
      | none => gearScan n (isWordChar c) cs

def gearFinditer (cs : List Char) : List (Bool × List Char) :=
  gearScan cs.length false cs

/-- `GEAR_TYPE_RE.search(...)` is not `None`. -/
def gearSearch : Bool → List Char → Bool
  | _, [] => false
  | pw, c :: cs => (gearMatchAt pw (c :: cs)).isSome || gearSearch (isWordChar c) cs

/-! ## `AG_PATTERN = \bA-?GEAR\b` (IGNORECASE) -/

def agMatchAt (prevWord : Bool) (cs : List Char) : Bool :=
  bAt prevWord cs &&
  (match matchCI ("A".toList) cs with
   | some (_, r1) =>
     (match r1 with
      | '-' :: r2 =>
        (match matchCI ("GEAR".toList) r2 with
         | some (_, r3) => bAfter r3
         | none => false)
      | _ => false) ||
     (match matchCI ("GEAR".toList) r1 with
      | some (_, r3) => bAfter r3
      | none => false)
   | none => false)

def agSearch : Bool → List Char → Bool
  | _, [] => false
  | pw, c :: cs => agMatchAt pw (c :: cs) || agSearch (isWordChar c) cs

/-! ## `FT_FROM_THR_RE = (\d{2,5})\s*FT\s*FM\s*THR` (IGNORECASE) -/

def ftThrTail (r : List Char) : Option (List Char) :=
  let r1 := (spanSpaces r).2
  match matchCI ("FT".toList) r1 with
  | none => none
  | some (_, r2) =>
    let r3 := (spanSpaces r2).2
    match matchCI ("FM".toList) r3 with
    | none => none
    | some (_, r4) =>
      let r5 := (spanSpaces r4).2
      (matchCI ("THR".toList) r5).map (fun p => p.2)

def ftThrAtK (k : Nat) (cs : List Char) : Option (List Char × List Char) :=
  match takeDigits k cs with
  | none => none
  | some (ds, r) => (ftThrTail r).map (fun rest => (ds, rest))

/-- `\d{2,5}` is greedy: 5 digits first, down to 2. -/
def ftThrMatchAt (cs : List Char) : Option (List Char × List Char) :=
  ftThrAtK 5 cs <|> ftThrAtK 4 cs <|> ftThrAtK 3 cs <|> ftThrAtK 2 cs

def ftThrScan : Nat → List Char → List (List Char)
  | 0, _ => []
  | _ + 1, [] => []
  | n + 1, c :: cs =>
      match ftThrMatchAt (c :: cs) with
      | some (ds, rest) => ds :: ftThrScan n rest
      | none => ftThrScan n cs

def ftThrFindall (cs : List Char) : List (List Char) := ftThrScan cs.length cs

/-! ## `PAREN_FEET_RE = \((\d{2,5})\s*(?:FT|FT\.|')?\)` (IGNORECASE) -/

def parenUnit (u : List Char) (r1 : List Char) : Option (List Char) :=
  match matchCI u r1 with
  | some (_, r2) =>
    (match r2 with
     | ')' :: r3 => some r3
     | _ => none)
  | none => none

def parenTail (r : List Char) : Option (List Char) :=
  let r1 := (spanSpaces r).2
  parenUnit ("FT".toList) r1 <|> parenUnit ("FT.".toList) r1 <|>
  parenUnit [Char.ofNat 39] r1 <|>
  (match r1 with
   | ')' :: r3 => some r3
   | _ => none)

def parenAtK (k : Nat) (cs : List Char) : Option (List Char × List Char) :=
  match cs with
  | '(' :: r =>
    (match takeDigits k r with
     | some (ds, r2) => (parenTail r2).map (fun rest => (ds, rest))
     | none => none)
  | _ => none

def parenMatchAt (cs : List Char) : Option (List Char × List Char) :=
  parenAtK 5 cs <|> parenAtK 4 cs <|> parenAtK 3 cs <|> parenAtK 2 cs

def parenScan : Nat → List Char → List (List Char)
  | 0, _ => []
  | _ + 1, [] => []
  | n + 1, c :: cs =>
      match parenMatchAt (c :: cs) with
      | some (ds, rest) => ds :: parenScan n rest
      | none => parenScan n cs

def parenFindall (cs : List Char) : List (List Char) := parenScan cs.length cs

/-! ## Gear code normalization (`parse_gear_from_text` lines 104-113) -/

/-- Python `str.replace(pat, repl)`: all non-overlapping occurrences, left
to right. -/
def replaceAllGo (pat repl : List Char) : Nat → List Char → List Char
  | 0, cs => cs
  | _ + 1, [] => []
  | n + 1, c :: cs =>
      match matchCS pat (c :: cs) with
      | some rest => repl ++ replaceAllGo pat repl n rest
      | none => c :: replaceAllGo pat repl n cs

def replaceAll (pat repl s : List Char) : List Char :=
  replaceAllGo pat repl s.length s

/--
`re.sub(r"^L1\s*-?\s*L2([A-Z]?)$", repl + group(1), s)`: an anchored,
case-sensitive substitution, i.e. a full-string rewrite when the pattern
matches and the identity otherwise ($ is modelled as end of string; the
normalized codes contain no newline).
-/
def anchoredSub (l1 l2 repl s : List Char) : List Char :=
  match matchCS l1 s with
  | none => s
  | some r1 =>
    let r1b := (spanSpaces r1).2
    let r2 :=
      match r1b with
      | '-' :: t => (spanSpaces t).2
      | _ => r1b
    match matchCS l2 r2 with
    | none => s
    | some r3 =>
      match r3 with
      | [] => repl
      | [c] => if isUpperLetter c then repl ++ [c] else s
      | _ => s

/-- The normalization chain applied to the upper-cased gear group. -/
def normGearRaw (s : List Char) : List Char :=
  let raw := s.map toUp
  let n1 := anchoredSub ("BAK".toList) ("12".toList) ("BAK-12".toList) raw
  let n2 := replaceAll ("MB-60".toList) ("MB60".toList) n1
  let n3 := anchoredSub ("E".toList) ("5".toList) ("E-5".toList) n2
  let n4 := anchoredSub ("E".toList) ("28".toList) ("E-28".toList) n3
  anchoredSub ("E".toList) ("32".toList) ("E-32".toList) n4

/-- Full normalized type: `("HOOK " + norm) if hook else norm`. -/
def normGearType (hook : Bool) (gear : String) : String :=
  let n : String := ⟨normGearRaw gear.toList⟩
  if hook then "HOOK " ++ n else n

/-! ## `parse_gear_from_text` -/

structure GearMention where
  type : String
  distances_from_threshold_ft : List Nat
  distances_misc_ft : List Nat
  raw : String
deriving DecidableEq, Repr

/-- Insert into a sorted duplicate-free list. -/
def insSorted (a : Nat) : List Nat → List Nat
  | [] => [a]
  | b :: l =>
      if a < b then a :: b :: l
      else if a = b then b :: l
      else b :: insSorted a l

/-- Python `sorted(set(xs))`: ascending, duplicate-free. -/
def sortedSetList (xs : List Nat) : List Nat := xs.foldr insSorted []

/-- The `FT FM THR` distances collected from a note (`d_thr`). -/
def thrValues (txt : List Char) : List Nat :=
  (ftThrFindall txt).map digitsVal

/-- The parenthetical distances collected from a note (`d_misc`). -/
def miscValues (txt : List Char) : List Nat :=
  (parenFindall txt).map digitsVal

def parse_gear_from_text (note : String) : List GearMention :=
  let txt := pyStrip note
  if txt = "" then []
  else
    let cs := txt.toList
    let dThr := thrValues cs
    let dMisc := miscValues cs
    (gearFinditer cs).map (fun m =>
      { type := normGearType m.1 ⟨m.2⟩
        distances_from_threshold_ft := sortedSetList dThr
        distances_misc_ft := sortedSetList (dMisc.filter (fun d => !(dThr.contains d)))
        raw := txt })

/-! ## XML element trees

`Elem` models an `xml.etree.ElementTree.Element`: tag (with namespace in
braces), attributes, text content and child elements.  `iterElems` is
`Element.iter()`: pre-order document traversal starting at the element
itself. -/

inductive Elem : Type where
  | node (tag : String) (attrs : List (String × String)) (text : String)
      (children : List Elem)

def Elem.tag : Elem → String
  | .node t _ _ _ => t

def Elem.attrs : Elem → List (String × String)
  | .node _ a _ _ => a

def Elem.text : Elem → String
  | .node _ _ x _ => x

def Elem.children : Elem → List Elem
  | .node _ _ _ cs => cs

mutual

def iterElems : Elem → List Elem
  | .node t a x cs => Elem.node t a x cs :: iterList cs

def iterList : List Elem → List Elem
  | [] => []
  | e :: es => iterElems e ++ iterList es

end

def dropBrace : List Char → Option (List Char)
  | [] => none
  | c :: cs => if c = '\x7d' then some cs else dropBrace cs

/--
`localname`: strip a `\x7bnamespace\x7d` prefix from a tag.  (Python would
raise on a tag that opens a brace and never closes it; such tags do not
occur in namespaced XML, and the model returns the tag unchanged there.)
-/
def localname (t : String) : String :=
  match t.toList with
  | c :: cs =>
      if c = '\x7b' then
        match dropBrace cs with
        | some r => ⟨r⟩
        | none => t
      else t
  | [] => t

def gmlIdKey : String := "\x7bhttp://www.opengis.net/gml/3.2\x7did"

def xlinkHrefKey : String := "\x7bhttp://www.w3.org/1999/xlink\x7dhref"

def lookupAttr (attrs : List (String × String)) (k : String) : Option String :=
  (attrs.find? (fun p => p.1 = k)).map Prod.snd

/-- `elem.attrib.get(k, "")` -/
def getAttrD (e : Elem) (k : String) : String :=
  (lookupAttr e.attrs k).getD ""

/-- A note concerns arresting gear: `AG_PATTERN.search or GEAR_TYPE_RE.search`. -/
def noteMatches (t : String) : Bool :=
  agSearch false t.toList || gearSearch false t.toList

def timeslice_has_gear (ts : Elem) : Bool :=
  (iterElems ts).any (fun n =>
    localname n.tag = "note" && noteMatches (pyStrip n.text))

def sample_gear_note (ts : Elem) : Option String :=
  ((iterElems ts).find? (fun n =>
    localname n.tag = "note" && noteMatches (pyStrip n.text))).map
    (fun n => pyStrip n.text)

def extract_gear_notes (ts : Elem) : List String :=
  (iterElems ts).filterMap (fun n =>
    if localname n.tag = "note" then
      let t := pyStrip n.text
      if noteMatches t then some t else none
    else none)

/-- All (stripped) note texts of a time slice, in document order. -/
def notesOf (ts : Elem) : List String :=
  (iterElems ts).filterMap (fun n =>
    if localname n.tag = "note" then some (pyStrip n.text) else none)

/-! ## Reference resolution: `re.search(r"@gml:id='([^']+)'", href)` -/

def quoteChar : Char := Char.ofNat 39

def refAt (cs : List Char) : Option (List Char) :=
  match matchCS ("@gml:id=".toList ++ [quoteChar]) cs with
  | none => none
  | some r =>
    let cap := r.takeWhile (fun c => c != quoteChar)
    let rest := r.dropWhile (fun c => c != quoteChar)
    if cap.isEmpty then none
    else
      match rest with
      | _ :: _ => some cap
      | [] => none

def resolveHrefGo : List Char → Option (List Char)
  | [] => none
  | c :: cs => refAt (c :: cs) <|> resolveHrefGo cs

/-- Extract the feature id embedded in an href cross-reference attribute. -/
def resolveHref (href : String) : Option String :=
  (resolveHrefGo href.toList).map (fun l => ⟨l⟩)

/-! ## Association lists with insertion-order dict semantics -/

def updIns {α β : Type} [DecidableEq α] : List (α × β) → α → β → List (α × β)
  | [], k, v => [(k, v)]
  | (k', v') :: rest, k, v =>
      if k' = k then (k', v) :: rest else (k', v') :: updIns rest k v

def lookupA {α β : Type} [DecidableEq α] (m : List (α × β)) (k : α) : Option β :=
  (m.find? (fun p => p.1 = k)).map Prod.snd

/-! ## `index_gear_notes_across` (one completed element of the stream) -/

def refTags : List String :=
  ["associatedAirportHeliport", "airportHeliport", "airportLocation", "clientAirport"]

/-- First parseable airport reference among matching-tag descendants
(a matching tag whose href does not parse is skipped, not a stop). -/
def findAirportRef (e : Elem) : Option String :=
  (iterElems e).findSome? (fun c =>
    if refTags.contains (localname c.tag) then resolveHref (getAttrD c xlinkHrefKey)
    else none)

def step_gear_across (m : List (String × List String)) (e : Elem) :
    List (String × List String) :=
  if !((localname e.tag).endsWith "TimeSlice") then m
  else
    match findAirportRef e with
    | none => m
    | some ref =>
        let found := extract_gear_notes e
        if found.isEmpty then m
        else
          match lookupA m ref with
          | some old => updIns m ref (old ++ found)
          | none => updIns m ref found

def index_gear_notes_across (elems : List Elem) : List (String × List String) :=
  elems.foldl step_gear_across []

/-! ## Python `float()` on decimal notation, `int(float(...))` -/

def expFactor (negE : Bool) (e : Nat) (v : Rat) : Rat :=
  if negE then v / (10 : Rat) ^ e else v * (10 : Rat) ^ e

def parseExpDigits (v : Rat) (negE : Bool) (cs : List Char) : Option Rat :=
  let p := spanDigits cs
  if p.1.isEmpty || !p.2.isEmpty then none
  else some (expFactor negE (digitsVal p.1) v)

def parseExpPart (v : Rat) : List Char → Option Rat
  | [] => some v
  | c :: r =>
      if c = 'e' || c = 'E' then
        match r with
        | '+' :: r2 => parseExpDigits v false r2
        | '-' :: r2 => parseExpDigits v true r2
        | _ => parseExpDigits v false r
      else none

def parseBody (cs : List Char) : Option Rat :=
  let ip := spanDigits cs
  match ip.2 with
  | '.' :: r2 =>
    let fp := spanDigits r2
    if ip.1.isEmpty && fp.1.isEmpty then none
    else
      parseExpPart
        ((digitsVal ip.1 : Rat) + (digitsVal fp.1 : Rat) / (10 : Rat) ^ fp.1.length)
        fp.2
  | _ => if ip.1.isEmpty then none else parseExpPart (digitsVal ip.1 : Rat) ip.2

def pyFloat? (s : String) : Option Rat :=
  match (pyStrip s).toList with
  | '+' :: r => parseBody r
  | '-' :: r => (parseBody r).map Neg.neg
  | cs => parseBody cs

/-- Python `int()` truncates toward zero. -/
def pyTruncInt (q : Rat) : Int := q.num.tdiv (q.den : Int)

def parseIntF (s : String) : Option Int := (pyFloat? s).map pyTruncInt

/-- Python `str.split()` (whitespace runs, no empty tokens). -/
def splitWSGo : Nat → List Char → List (List Char)
  | 0, _ => []
  | _ + 1, [] => []
  | n + 1, c :: cs =>
      if isSpaceChar c then splitWSGo n cs
      else
        (c :: cs.takeWhile (fun d => !isSpaceChar d)) ::
          splitWSGo n (cs.dropWhile (fun d => !isSpaceChar d))

def splitWS (s : String) : List String :=
  (splitWSGo s.toList.length s.toList).map (fun l => (⟨l⟩ : String))

/-! ## `index_airports` -/

structure AirportRec where
  code : Option String
  name : Option String
  icao : Option String
  lat : Option Rat
  lon : Option Rat
  city : Option String
  state_code : Option String
  state : Option String
deriving DecidableEq, Repr

def extractDesigNameGo : List Elem → Option String → Option String →
    Option String × Option String
  | [], code, name => (code, name)
  | c :: rest, code, name =>
      let code' :=
        if localname c.tag = "designator" ∧ code = none then strippedOrNone c.text
        else code
      let name' :=
        if localname c.tag = "name" ∧ name = none then strippedOrNone c.text
        else name
      if pyTruthyS code' ∧ pyTruthyS name' then (code', name')
      else extractDesigNameGo rest code' name'

/-- Designator/name from direct children, first-wins, early break. -/
def extract_designator_and_name (e : Elem) : Option String × Option String :=
  extractDesigNameGo e.children none none

structure SliceAcc where
  icao : Option String
  lat : Option Rat
  lon : Option Rat
  city : Option String
  state_code : Option String
  state_name : Option String
deriving Repr

def initSliceAcc : SliceAcc := ⟨none, none, none, none, none, none⟩

/--
One `gml:pos` text: `parts = [float(x) for x in txt.split() if x]` inside
`try`, then `lon, lat = parts[0], parts[1]` when at least two parts.
A conversion failure (modelled by `mapM` returning `none`) leaves both
coordinates unchanged; `split()` yields no empty tokens, so the `if x`
filter is vacuous.  Returns (lat, lon).
-/
def processPos (la lo : Option Rat) (txt : String) : Option Rat × Option Rat :=
  match (splitWS txt).mapM pyFloat? with
  | none => (la, lo)
  | some vals =>
      match vals with
      | p0 :: p1 :: _ => (some p1, some p0)
      | _ => (la, lo)

def posStep (a : SliceAcc) (sub : Elem) : SliceAcc :=
  if localname sub.tag = "pos" then
    let p := processPos a.lat a.lon (pyStrip sub.text)
    { a with lat := p.1, lon := p.2 }
  else a

def servedCityFind (child : Elem) : Option String :=
  (iterElems child).findSome? (fun sub =>
    if localname sub.tag = "name" ∨ localname sub.tag = "cityName" then
      strippedOrNone sub.text
    else none)

def extStep (a : SliceAcc) (sub : Elem) : SliceAcc :=
  let stag := localname sub.tag
  if stag = "countyStatePostOfficeCode" ∧ ¬ pyTruthyS a.state_code then
    match strippedOrNone sub.text with
    | some t => { a with state_code := some t }
    | none => a
  else if stag = "stateName" ∧ ¬ pyTruthyS a.state_name then
    match strippedOrNone sub.text with
    | some t => { a with state_name := some t }
    | none => a
  else a

def addrStep (a : SliceAcc) (ap : Elem) : SliceAcc :=
  let atag := localname ap.tag
  if atag = "city" ∧ ¬ pyTruthyS a.city then
    match strippedOrNone ap.text with
    | some t => { a with city := some t }
    | none => a
  else if (atag = "administrativeArea" ∨ atag = "stateProvince") ∧
      ¬ pyTruthyS a.state_code then
    match strippedOrNone ap.text with
    | some t => { a with state_code := some t }
    | none => a
  else a

def orgStep (a : SliceAcc) (sub : Elem) : SliceAcc :=
  let stag := localname sub.tag
  if stag = "address" then (iterElems sub).foldl addrStep a
  else if stag = "countyStatePostOfficeCode" ∧ ¬ pyTruthyS a.state_code then
    match strippedOrNone sub.text with
    | some t => { a with state_code := some t }
    | none => a
  else if stag = "stateName" ∧ ¬ pyTruthyS a.state_name then
    match strippedOrNone sub.text with
    | some t => { a with state_name := some t }
    | none => a
  else a

def orgTags : List String :=
  ["AirportHeliportResponsibilityOrganisation", "responsibleOrganisation", "contact"]

/-- One direct child of an `AirportHeliportTimeSlice` (lines 243-301). -/
def processChild (a : SliceAcc) (child : Elem) : SliceAcc :=
  let tag := localname child.tag
  if tag = "locationIndicatorICAO" then { a with icao := strippedOrNone child.text }
  else if tag = "ARP" then (iterElems child).foldl posStep a
  else if tag = "servedCity" ∧ ¬ pyTruthyS a.city then
    match servedCityFind child with
    | some t => { a with city := some t }
    | none => a
  else if tag = "extension" then (iterElems child).foldl extStep a
  else if orgTags.contains tag then (iterElems child).foldl orgStep a
  else a

/-- The record built from one completed airport time slice. -/
def airportSliceRec (e : Elem) : AirportRec :=
  let dn := extract_designator_and_name e
  let a := e.children.foldl processChild initSliceAcc
  { code := dn.1, name := dn.2, icao := a.icao, lat := a.lat, lon := a.lon,
    city := a.city, state_code := a.state_code, state := a.state_name }

/-- The iterparse event stream: a start event exposes the element's tag
and attributes; an end event exposes the completed element. -/
inductive XEvent where
  | start (tag : String) (attrs : List (String × String))
  | stop (e : Elem)

structure AirState where
  airports : List (String × AirportRec)
  gear_notes : List (String × List String)
  cur : Option String
deriving Repr

def step_index_airports (st : AirState) (ev : XEvent) : AirState :=
  match ev with
  | .start tag attrs =>
      if localname tag = "AirportHeliport" then
        { st with cur := lookupAttr attrs gmlIdKey }
      else st
  | .stop e =>
      let tag := localname e.tag
      if tag = "AirportHeliportTimeSlice" then
        match st.cur with
        | some aid =>
            if aid ≠ "" then
              let notes := extract_gear_notes e
              { st with
                airports := updIns st.airports aid (airportSliceRec e),
                gear_notes :=
                  if notes.isEmpty then st.gear_notes
                  else updIns st.gear_notes aid notes }
            else st
        | none => st
      else if tag = "AirportHeliport" then { st with cur := none }
      else st

def index_airports (evs : List XEvent) : AirState :=
  evs.foldl step_index_airports ⟨[], [], none⟩

/-! ## `index_runways` -/

structure RwySliceAcc where
  designator : Option String
  airport_ref : Option String
  length_ft : Option Int
  width_ft : Option Int

def rwySliceStep (a : RwySliceAcc) (child : Elem) : RwySliceAcc :=
  let ctag := localname child.tag
  if ctag = "designator" then { a with designator := some (pyStrip child.text) }
  else if ctag = "associatedAirportHeliport" then
    match resolveHref (getAttrD child xlinkHrefKey) with
    | some r => { a with airport_ref := some r }
    | none => a
  else if ctag = "lengthStrip" then { a with length_ft := parseIntF (pyStrip child.text) }
  else if ctag = "widthStrip" then { a with width_ft := parseIntF (pyStrip child.text) }
  else a

def rwySliceFields (e : Elem) : RwySliceAcc :=
  e.children.foldl rwySliceStep ⟨none, none, none, none⟩

/-- `re.match(r"PRE(.+)", id)`: anchored prefix, non-empty remainder. -/
def matchPrefixGroup (pre : String) (id : String) : Option String :=
  match matchCS pre.toList id.toList with
  | some rest => if rest.isEmpty then none else some ⟨rest⟩
  | none => none

/-- `re.match(r"RWY_DIRECTION_(BASE_END|RECIPROCAL_END)_(.+)", id)` and the
reconstruction of the runway-end id from its groups. -/
def dirEndId (did : String) : Option String :=
  match matchCS ("RWY_DIRECTION_".toList) did.toList with
  | none => none
  | some r =>
    (match matchCS ("BASE_END_".toList) r with
     | some rest =>
         if rest.isEmpty then none
         else some ("RWY_BASE_END_" ++ (⟨rest⟩ : String))
     | none => none) <|>
    (match matchCS ("RECIPROCAL_END_".toList) r with
     | some rest =>
         if rest.isEmpty then none
         else some ("RWY_RECIPROCAL_END_" ++ (⟨rest⟩ : String))
     | none => none)

structure RwyState where
  pair_dims : List ((String × String) × (Option Int × Option Int))
  end_info : List (String × (String × String × String))
  end_disp : List ((String × String) × Int)
  cur_runway : Option String
  cur_dir : Option String

def dispFold (e : Elem) : Option Int :=
  (iterElems e).foldl (fun d sub =>
    if localname sub.tag = "displacedThresholdLength" then
      let t := pyStrip sub.text
      if t ≠ "" then
        match parseIntF t with
        | some v => some v
        | none => d
      else d
    else d) none

def step_index_runways (st : RwyState) (ev : XEvent) : RwyState :=
  match ev with
  | .start tag attrs =>
      if localname tag = "Runway" then
        { st with cur_runway := lookupAttr attrs gmlIdKey }
      else if localname tag = "RunwayDirection" then
        { st with cur_dir := lookupAttr attrs gmlIdKey }
      else st
  | .stop e =>
      let tag := localname e.tag
      if tag = "RunwayTimeSlice" then
        let f := rwySliceFields e
        match st.cur_runway, f.airport_ref with
        | some rid, some ref =>
            if rid ≠ "" ∧ ref ≠ "" then
              if hasSubstr ("_BASE_END_".toList) rid.toList then
                let gs := (matchPrefixGroup "RWY_BASE_END_" rid).getD rid
                { st with end_info := updIns st.end_info rid (ref, f.designator.getD "", gs) }
              else if hasSubstr ("_RECIPROCAL_END_".toList) rid.toList then
                let gs := (matchPrefixGroup "RWY_RECIPROCAL_END_" rid).getD rid
                { st with end_info := updIns st.end_info rid (ref, f.designator.getD "", gs) }
              else
                let gs := (matchPrefixGroup "RWY_" rid).getD rid
                { st with pair_dims := updIns st.pair_dims (ref, gs) (f.length_ft, f.width_ft) }
            else st
        | _, _ => st
      else if tag = "Runway" then { st with cur_runway := none }
      else if tag = "RunwayDirectionTimeSlice" then
        match st.cur_dir, dispFold e with
        | some did, some v =>
            if did ≠ "" then
              match dirEndId did with
              | some endId =>
                  (match lookupA st.end_info endId with
                   | some info => { st with end_disp := updIns st.end_disp (info.1, info.2.1) v }
                   | none => st)
              | none => st
            else st
        | _, _ => st
      else if tag = "RunwayDirection" then { st with cur_dir := none }
      else st

structure RwyEntry where
  designator : String
  length_ft : Option Int
  width_ft : Option Int
deriving DecidableEq, Repr

/-- The entry emitted for one recorded runway end in the final assembly:
effective length is the pair length minus the end's displaced-threshold
correction (default 0), floored at 0; width passes through. -/
def mkEndEntry (pd : List ((String × String) × (Option Int × Option Int)))
    (ed : List ((String × String) × Int)) (info : String × String × String) :
    RwyEntry :=
  let dims := (lookupA pd (info.1, info.2.2)).getD (none, none)
  let disp := (lookupA ed (info.1, info.2.1)).getD 0
  { designator := info.2.1
    length_ft := dims.1.map (fun l => max 0 (l - disp))
    width_ft := dims.2 }

def appendEntry (m : List (String × List RwyEntry)) (k : String) (v : RwyEntry) :
    List (String × List RwyEntry) :=
  match lookupA m k with
  | some old => updIns m k (old ++ [v])
  | none => updIns m k [v]

def buildByAirport (pd : List ((String × String) × (Option Int × Option Int)))
    (ei : List (String × (String × String × String)))
    (ed : List ((String × String) × Int)) : List (String × List RwyEntry) :=
  let base := ei.foldl (fun m kv => appendEntry m kv.2.1 (mkEndEntry pd ed kv.2)) []
  pd.foldl (fun m kv =>
    match lookupA m kv.1.1 with
    | some _ => m
    | none =>
        updIns m kv.1.1
          [{ designator := kv.1.2, length_ft := kv.2.1, width_ft := kv.2.2 }]) base

def index_runways (evs : List XEvent) : List (String × List RwyEntry) :=
  let st := evs.foldl step_index_runways ⟨[], [], [], none, none⟩
  buildByAirport st.pair_dims st.end_info st.end_disp

/-! ## The iterparse event stream of a document tree -/

mutual

def eventsOf : Elem → List XEvent
  | .node t a x cs =>
      XEvent.start t a :: (eventsList cs ++ [XEvent.stop (Elem.node t a x cs)])

def eventsList : List Elem → List XEvent
  | [] => []
  | e :: es => eventsOf e ++ eventsList es

end

/-! ## Concrete fixtures used by the claims -/

def noteC2 : String :=
  "RWY 14/32 equipped with BAK-12 and BAK14. 1500 FT FM THR (1200)."

def noteC5 : String := "HOOK BAK12 available; MB60 also present (1000 FT)."

/-- Already-canonical code strings named by the specification. -/
def canonicalGearCodes : List String :=
  ["BAK-12", "BAK-12A", "BAK14", "MB60", "EMAS", "MAAS", "E-5", "E-28", "E-32"]

/-! ## Supporting lemmas -/

theorem mem_insSorted (b a : Nat) (l : List Nat) :
    b ∈ insSorted a l ↔ b = a ∨ b ∈ l := by
  induction l with
  | nil => simp [insSorted]
  | cons c l ih =>
      simp only [insSorted]
      split
      · simp [List.mem_cons, or_comm, or_assoc, or_left_comm]
      · split
        · rename_i h1 h2
          subst h2
          simp only [List.mem_cons]
          constructor
          · intro h; exact Or.inr h
          · rintro (h | h)
            · exact Or.inl h
            · exact h
        · simp only [List.mem_cons, ih]
          constructor
          · rintro (h | h | h)
            · exact Or.inr (Or.inl h)
            · exact Or.inl h
            · exact Or.inr (Or.inr h)
          · rintro (h | h | h)
            · exact Or.inr (Or.inl h)
            · exact Or.inl h
            · exact Or.inr (Or.inr h)

theorem mem_sortedSetList (b : Nat) (xs : List Nat) :
    b ∈ sortedSetList xs ↔ b ∈ xs := by
  induction xs with
  | nil => simp [sortedSetList]
  | cons a l ih =>
      simp only [sortedSetList, List.foldr_cons] at *
      rw [mem_insSorted, ih]
      simp [List.mem_cons]

theorem parse_gear_shape (note : String) (g : GearMention)
    (hg : g ∈ parse_gear_from_text note) :
    g.distances_from_threshold_ft = sortedSetList (thrValues (pyStrip note).toList) ∧
    g.distances_misc_ft =
      sortedSetList ((miscValues (pyStrip note).toList).filter
        (fun d => !((thrValues (pyStrip note).toList).contains d))) ∧
    g.raw = pyStrip note := by
  unfold parse_gear_from_text at hg
  by_cases h : pyStrip note = ""
  · simp [h] at hg
  · simp only [h, if_false] at hg
    obtain ⟨m, _, rfl⟩ := List.mem_map.mp hg
    exact ⟨rfl, rfl, rfl⟩

/--
C1: in every mention produced by `parse_gear_from_text`, a distance tagged
"FT FM THR" is reported in the from-threshold set and never in the misc
set: the two distance sets of one mention are disjoint, and the
from-threshold set consists exactly of the note's FM-THR-tagged values.
-/
theorem thr_takes_priority_over_misc (note : String) (g : GearMention)
    (hg : g ∈ parse_gear_from_text note) :
    (∀ d ∈ g.distances_from_threshold_ft, d ∉ g.distances_misc_ft) ∧
    (∀ d, d ∈ g.distances_from_threshold_ft ↔
        d ∈ thrValues (pyStrip note).toList) := by
  obtain ⟨hthr, hmisc, _⟩ := parse_gear_shape note g hg
  constructor
  · intro d hd hdm
    rw [hthr, mem_sortedSetList] at hd
    rw [hmisc, mem_sortedSetList, List.mem_filter] at hdm
    have hcon : (thrValues (pyStrip note).toList).contains d = true :=
      List.elem_eq_true_of_mem hd
    have := hdm.2
    rw [hcon] at this
    exact absurd this (by decide)
  · intro d
    rw [hthr, mem_sortedSetList]

/-- Witness for C1 at the concrete note of C2. -/
theorem thr_takes_priority_over_misc_witness :
    1500 ∉ (GearMention.mk "BAK-12" [1500] [1200] noteC2).distances_misc_ft := by
  have hmem : GearMention.mk "BAK-12" [1500] [1200] noteC2 ∈
      parse_gear_from_text noteC2 := by
    rw [show parse_gear_from_text noteC2 =
      [GearMention.mk "BAK-12" [1500] [1200] noteC2,
       GearMention.mk "BAK14" [1500] [1200] noteC2] from rfl]
    exact List.mem_cons_self _ _
  exact (thr_takes_priority_over_misc noteC2 _ hmem).1 1500 (by decide)

/--
C2: the note "RWY 14/32 equipped with BAK-12 and BAK14. 1500 FT FM THR
(1200)." yields exactly two mentions, typed BAK-12 and BAK14, both with
from-threshold set {1500}, misc set {1200}, and the verbatim note as raw.
-/
theorem parse_two_mentions_shared_distances :
    parse_gear_from_text noteC2 =
      [GearMention.mk "BAK-12" [1500] [1200] noteC2,
       GearMention.mk "BAK14" [1500] [1200] noteC2] := rfl

/--
C5: normalization upper-cases the matched code, hyphenates 12-suffixed BAK
codes (trailing letter preserved), collapses MB-60's hyphen, hyphenates
the E-family variants 5/28/32, and prefixes "HOOK " exactly when the hook
qualifier preceded the match; the concrete note yields types
HOOK BAK-12 and MB60.
-/
theorem gear_code_normalization :
    (parse_gear_from_text noteC5).map GearMention.type = ["HOOK BAK-12", "MB60"] ∧
    normGearType false "BAK12" = "BAK-12" ∧
    normGearType false "BAK-12" = "BAK-12" ∧
    normGearType false "bak12a" = "BAK-12A" ∧
    normGearType false "MB-60" = "MB60" ∧
    normGearType false "MB60" = "MB60" ∧
    normGearType false "E5" = "E-5" ∧
    normGearType false "e28" = "E-28" ∧
    normGearType false "E32b" = "E-32B" ∧
    normGearType true "BAK12" = "HOOK BAK-12" ∧
    normGearType true "bak-12" = "HOOK BAK-12" :=
  ⟨rfl, rfl, rfl, rfl, rfl, rfl, rfl, rfl, rfl, rfl, rfl⟩

/--
C6: the normalization chain is idempotent on every canonical code string
named by the specification: normalizing an already-canonical code returns
it unchanged.
-/
theorem normalization_idempotent_on_canonical :
    canonicalGearCodes.all (fun s => normGearType false s == s) = true := rfl

/-! ## Fixtures for the indexer claims -/

def mkEl (t : String) (cs : List Elem) : Elem := Elem.node t [] "" cs

def mkT (t x : String) : Elem := Elem.node t [] x []

/-- A time slice carrying a gear note (used to show dropping is not due to
the slice being empty). -/
def tsGear : Elem :=
  mkEl ("AirportHeliportTimeSlice") [mkT ("note") ("BAK-12 (1200)")]

/-- Organisation/address state field first, agency-extension field second. -/
def tsOrgFirst : Elem :=
  mkEl ("AirportHeliportTimeSlice")
    [mkEl ("contact") [mkEl ("address") [mkT ("administrativeArea") ("CA")]],
     mkEl ("extension") [mkT ("countyStatePostOfficeCode") ("TX")]]

/-- Agency-extension state field first, organisation/address field second. -/
def tsExtFirst : Elem :=
  mkEl ("AirportHeliportTimeSlice")
    [mkEl ("extension") [mkT ("countyStatePostOfficeCode") ("TX")],
     mkEl ("contact") [mkEl ("address") [mkT ("administrativeArea") ("CA")]]]

/-- A slice with a malformed ARP coordinate text and a valid designator. -/
def tsC9 : Elem :=
  mkEl ("AirportHeliportTimeSlice")
    [mkT ("designator") ("XYZ"),
     mkEl ("ARP") [mkEl ("ElevatedPoint") [mkT ("pos") ("bogus 30.72")]]]

/-- A RunwayTimeSlice whose airport cross-reference has a predicate that
does not match the `@gml:id='...'` pattern. -/
def badRefSlice : Elem :=
  Elem.node ("RunwayTimeSlice") [] ""
    [Elem.node ("associatedAirportHeliport")
      [(xlinkHrefKey, "#/AirportHeliport[gml:id='AH_1']")] "" []]

/-!
C4: a time slice completed while no container id is current contributes
nothing.
-/

/--
C4: when the enclosing `AirportHeliport` container's gml:id is unknown
(`cur` is `none` because the container was not opened or was already
closed, or the id attribute was empty), a completed
`AirportHeliportTimeSlice` — or any other end event — leaves both the
airports map and the gear-notes map unchanged: no record is ever indexed
under a null key.
-/
theorem no_null_keyed_airport_entries (st : AirState) (e : Elem)
    (h : st.cur = none ∨ st.cur = some "") :
    (step_index_airports st (XEvent.stop e)).airports = st.airports ∧
    (step_index_airports st (XEvent.stop e)).gear_notes = st.gear_notes := by
  rcases h with h | h <;>
    simp only [step_index_airports, h] <;> split_ifs <;> simp_all

/-- Witness for C4: a gear-bearing slice is dropped when no container is
open. -/
theorem no_null_keyed_airport_entries_witness :
    (step_index_airports (AirState.mk [] [] none) (XEvent.stop tsGear)).airports =
      (AirState.mk [] [] none).airports ∧
    (step_index_airports (AirState.mk [] [] none) (XEvent.stop tsGear)).gear_notes =
      (AirState.mk [] [] none).gear_notes :=
  no_null_keyed_airport_entries (AirState.mk [] [] none) tsGear (Or.inl rfl)

/--
C8: an absent or unparseable cross-reference attribute yields no feature
id, and the affected time slice is silently dropped: the gear-notes-across
step and the runway-slice step leave their maps unchanged.
-/
theorem missing_reference_dropped :
    resolveHref "" = none ∧
    resolveHref "#/AirportHeliport[gml:id='AH_1']" = none ∧
    (∀ (m : List (String × List String)) (e : Elem),
        findAirportRef e = none → step_gear_across m e = m) ∧
    (∀ (st : RwyState) (e : Elem), localname e.tag = "RunwayTimeSlice" →
        (rwySliceFields e).airport_ref = none →
        step_index_runways st (XEvent.stop e) = st) := by
  refine ⟨rfl, rfl, ?_, ?_⟩
  · intro m e h
    unfold step_gear_across
    split
    · rfl
    · rw [h]
  · intro st e h1 h2
    unfold step_index_runways
    simp only [h1, if_pos, h2]
    cases st.cur_runway <;> simp

/-- Witness for C8 at a concrete unparseable reference. -/
theorem missing_reference_dropped_witness :
    step_index_runways (RwyState.mk [] [] [] (some "RWY_BASE_END_X") none)
      (XEvent.stop badRefSlice) =
      RwyState.mk [] [] [] (some "RWY_BASE_END_X") none :=
  missing_reference_dropped.2.2.2
    (RwyState.mk [] [] [] (some "RWY_BASE_END_X") none) badRefSlice rfl rfl

/--
C9: an ARP position text is read as whitespace-separated "lon lat" and
stored swapped as (latitude, longitude); when the text is absent, has
fewer than two tokens, or any token fails numeric conversion, both
coordinates are left unchanged (absent) and the rest of the record still
indexes, as the concrete malformed slice shows.
-/
theorem arp_swap_and_malformed :
    (∀ (la lo : Option Rat) (txt : String),
        (splitWS txt).mapM pyFloat? = none → processPos la lo txt = (la, lo)) ∧
    (∀ (la lo : Option Rat) (txt : String) (vs : List Rat),
        (splitWS txt).mapM pyFloat? = some vs → vs.length < 2 →
        processPos la lo txt = (la, lo)) ∧
    (∀ (la lo : Option Rat) (txt : String) (p0 p1 : Rat) (rest : List Rat),
        (splitWS txt).mapM pyFloat? = some (p0 :: p1 :: rest) →
        processPos la lo txt = (some p1, some p0)) ∧
    airportSliceRec tsC9 =
      AirportRec.mk (some "XYZ") none none none none none none none := by
  refine ⟨?_, ?_, ?_, rfl⟩
  · intro la lo txt h
    unfold processPos
    rw [h]
  · intro la lo txt vs h hl
    unfold processPos
    rw [h]
    rcases vs with _ | ⟨a, _ | ⟨b, t⟩⟩
    · rfl
    · rfl
    · exfalso
      simp at hl
      omega
  · intro la lo txt p0 p1 rest h
    unfold processPos
    rw [h]

/-- Witness for C9: the malformed coordinate text leaves both fields
unchanged. -/
theorem arp_swap_and_malformed_witness :
    processPos none none "bogus 30.72" = (none, none) :=
  arp_swap_and_malformed.1 none none "bogus 30.72" rfl

/-!
C10: `sample_gear_note` returns a note exactly when `timeslice_has_gear`
holds, and it returns the first matching note in document order.
-/

theorem sample_eq_find_over_notes (l : List Elem) :
    ((l.find? (fun n =>
        localname n.tag = "note" && noteMatches (pyStrip n.text))).map
      (fun n => pyStrip n.text)) =
    (l.filterMap (fun n =>
        if localname n.tag = "note" then some (pyStrip n.text) else none)).find?
      noteMatches := by
  induction l with
  | nil => rfl
  | cons n l ih =>
      by_cases h : localname n.tag = "note"
      · by_cases hm : noteMatches (pyStrip n.text)
        · simp [h, hm]
        · simp [h, hm, ih]
      · simp [h, ih]

/--
C10: for every time slice, `sample_gear_note` is non-absent exactly when
`timeslice_has_gear` is true; the note returned is the first note (in
document order) whose stripped text matches the gear patterns, and any
returned note matches the patterns and is the stripped text of a note
element of the slice.
-/
theorem sample_note_iff_has_gear (ts : Elem) :
    ((sample_gear_note ts).isSome = timeslice_has_gear ts) ∧
    (sample_gear_note ts = (notesOf ts).find? noteMatches) ∧
    (∀ s, sample_gear_note ts = some s →
        noteMatches s = true ∧
        ∃ e ∈ iterElems ts, localname e.tag = "note" ∧ s = pyStrip e.text) := by
  refine ⟨?_, ?_, ?_⟩
  · unfold sample_gear_note timeslice_has_gear
    rw [Bool.eq_iff_iff]
    rw [Option.isSome_map']
    rw [List.find?_isSome, List.any_eq_true]
  · unfold sample_gear_note notesOf
    exact sample_eq_find_over_notes (iterElems ts)
  · intro s hs
    unfold sample_gear_note at hs
    obtain ⟨n, hfind, hmap⟩ := Option.map_eq_some'.mp hs
    have hp := List.find?_some hfind
    have hmem := List.mem_of_find?_eq_some hfind
    rw [Bool.and_eq_true, decide_eq_true_eq] at hp
    exact ⟨hmap ▸ hp.2, n, hmem, hp.1, hmap.symm⟩

/-- Witness for C10 on a concrete gear-bearing slice. -/
theorem sample_note_iff_has_gear_witness :
    noteMatches "BAK-12 (1200)" = true ∧
    ∃ e ∈ iterElems tsGear, localname e.tag = "note" ∧
      "BAK-12 (1200)" = pyStrip e.text :=
  (sample_note_iff_has_gear tsGear).2.2 "BAK-12 (1200)" rfl

/-!
C3: the runway indexer's final assembly.
-/

def rwyHref : String := "#/AirportHeliport[@gml:id='AH_1']"

def assocRef : Elem :=
  Elem.node ("associatedAirportHeliport") [(xlinkHrefKey, rwyHref)] "" []

def rwyDoc : Elem :=
  mkEl ("root")
    [Elem.node ("Runway") [(gmlIdKey, "RWY_10000_1")] ""
      [mkEl ("RunwayTimeSlice")
        [mkT ("designator") ("18/36"), assocRef,
         mkT ("lengthStrip") ("8000"), mkT ("widthStrip") ("150")]],
     Elem.node ("Runway") [(gmlIdKey, "RWY_BASE_END_10000_1")] ""
      [mkEl ("RunwayTimeSlice") [mkT ("designator") ("18"), assocRef]],
     Elem.node ("Runway") [(gmlIdKey, "RWY_RECIPROCAL_END_10000_1")] ""
      [mkEl ("RunwayTimeSlice") [mkT ("designator") ("36"), assocRef]],
     Elem.node ("RunwayDirection") [(gmlIdKey, "RWY_DIRECTION_BASE_END_10000_1")] ""
      [mkEl ("RunwayDirectionTimeSlice")
        [mkT ("displacedThresholdLength") ("500")]]]

def pdW : List ((String × String) × (Option Int × Option Int)) :=
  [(("AH_1", "10000_1"), (some 8000, some 150))]

def edW : List ((String × String) × Int) := [(("AH_1", "18"), 500)]

/--
C3: for every recorded runway end whose (airportId, groupKey) resolves to
pair dimensions with a length, the emitted entry has effective length
max(0, length − displaced-threshold correction) with the correction
defaulting to 0, and the pair's width unchanged; on the concrete document
(pair 8000/150, displaced threshold 500 on the base end only) the base end
gets 7500 and the reciprocal end 8000, both width 150.
-/
theorem effective_length_displaced_threshold :
    (∀ (pd : List ((String × String) × (Option Int × Option Int)))
       (ed : List ((String × String) × Int)) (ref desig gs : String)
       (L : Int) (W : Option Int),
        lookupA pd (ref, gs) = some (some L, W) →
        mkEndEntry pd ed (ref, desig, gs) =
          RwyEntry.mk desig (some (max 0 (L - (lookupA ed (ref, desig)).getD 0))) W) ∧
    index_runways (eventsOf rwyDoc) =
      [("AH_1", [RwyEntry.mk "18" (some 7500) (some 150),
                 RwyEntry.mk "36" (some 8000) (some 150)])] := by
  constructor
  · intro pd ed ref desig gs L W h
    simp [mkEndEntry, h]
  · rfl

/-- Witness for C3 on concrete maps. -/
theorem effective_length_displaced_threshold_witness :
    mkEndEntry pdW edW ("AH_1", "18", "10000_1") =
      RwyEntry.mk "18" (some (max 0 (8000 - (lookupA edW ("AH_1", "18")).getD 0)))
        (some 150) :=
  effective_length_displaced_threshold.1 pdW edW "AH_1" "18" "10000_1" 8000
    (some 150) rfl

/-!
C7: state-code preference.  The source assigns `state_code` on a
first-found-wins basis over the slice's children in document order; the
agency extension's code is NOT preferred when an organization/address
block carrying a state field precedes it.
-/

def extTX : Elem := mkEl ("extension") [mkT ("countyStatePostOfficeCode") ("TX")]

/--
C7 counterexample: in a time slice containing both a dedicated
agency-extension state code ("TX") and an organization/address
administrativeArea ("CA"), with the address block first in document order,
the indexer stores the address's value, not the extension's.
-/
theorem extension_preference_counterexample :
    (airportSliceRec tsOrgFirst).state_code = some "CA" ∧
    (airportSliceRec tsOrgFirst).state_code ≠ some "TX" := by
  refine ⟨rfl, ?_⟩
  decide

theorem posStep_state_code (a : SliceAcc) (s : Elem) :
    (posStep a s).state_code = a.state_code := by
  unfold posStep
  split <;> rfl

theorem foldl_posStep_state_code (l : List Elem) (a : SliceAcc) :
    (l.foldl posStep a).state_code = a.state_code := by
  induction l generalizing a with
  | nil => rfl
  | cons s l ih => rw [List.foldl_cons, ih, posStep_state_code]

theorem extStep_state_code (a : SliceAcc) (s : Elem)
    (h : pyTruthyS a.state_code = true) :
    (extStep a s).state_code = a.state_code := by
  unfold extStep
  dsimp only
  split_ifs with h1 h2
  · exact absurd h h1.2
  · cases strippedOrNone s.text <;> rfl
  · rfl

theorem foldl_extStep_state_code (l : List Elem) (a : SliceAcc)
    (h : pyTruthyS a.state_code = true) :
    (l.foldl extStep a).state_code = a.state_code := by
  induction l generalizing a with
  | nil => rfl
  | cons s l ih =>
      rw [List.foldl_cons]
      have hs := extStep_state_code a s h
      rw [ih (extStep a s) (by rw [hs]; exact h), hs]

theorem addrStep_state_code (a : SliceAcc) (s : Elem)
    (h : pyTruthyS a.state_code = true) :
    (addrStep a s).state_code = a.state_code := by
  unfold addrStep
  dsimp only
  split_ifs with h1 h2
  · cases strippedOrNone s.text <;> rfl
  · exact absurd h h2.2
  · rfl

theorem foldl_addrStep_state_code (l : List Elem) (a : SliceAcc)
    (h : pyTruthyS a.state_code = true) :
    (l.foldl addrStep a).state_code = a.state_code := by
  induction l generalizing a with
  | nil => rfl
  | cons s l ih =>
      rw [List.foldl_cons]
      have hs := addrStep_state_code a s h
      rw [ih (addrStep a s) (by rw [hs]; exact h), hs]

theorem orgStep_state_code (a : SliceAcc) (s : Elem)
    (h : pyTruthyS a.state_code = true) :
    (orgStep a s).state_code = a.state_code := by
  unfold orgStep
  dsimp only
  split_ifs with h1 h2 h3
  · exact foldl_addrStep_state_code _ a h
  · exact absurd h h2.2
  · cases strippedOrNone s.text <;> rfl
  · rfl

theorem foldl_orgStep_state_code (l : List Elem) (a : SliceAcc)
    (h : pyTruthyS a.state_code = true) :
    (l.foldl orgStep a).state_code = a.state_code := by
  induction l generalizing a with
  | nil => rfl
  | cons s l ih =>
      rw [List.foldl_cons]
      have hs := orgStep_state_code a s h
      rw [ih (orgStep a s) (by rw [hs]; exact h), hs]

/--
C7 amended: the indexer assigns the state code on a first-found-wins basis
over the slice's children in document order, drawing from either the
agency-extension field or the organization/address block, whichever comes
first; once a state code is set, later children (duplicates from either
source) never change it.  The extension's code wins exactly when the
extension precedes the organization block, as the two concrete slices
show.
-/
theorem state_code_first_found_wins :
    (∀ (a : SliceAcc) (child : Elem), pyTruthyS a.state_code = true →
        (processChild a child).state_code = a.state_code) ∧
    (airportSliceRec tsExtFirst).state_code = some "TX" ∧
    (airportSliceRec tsOrgFirst).state_code = some "CA" := by
  refine ⟨?_, rfl, rfl⟩
  intro a child h
  unfold processChild
  dsimp only
  split_ifs with h1 h2 h3 h4 h5
  · rfl
  · exact foldl_posStep_state_code _ a
  · cases servedCityFind child <;> rfl
  · exact foldl_extStep_state_code _ a h
  · exact foldl_orgStep_state_code _ a h
  · rfl

/-- Witness for C7's amended claim: an already-set state code survives a
later extension child. -/
theorem state_code_first_found_wins_witness :
    (processChild (SliceAcc.mk none none none none (some "CA") none) extTX).state_code =
      (SliceAcc.mk none none none none (some "CA") none).state_code :=
  state_code_first_found_wins.1
    (SliceAcc.mk none none none none (some "CA") none) extTX (by decide)

end T45
